import Mathlib

/-!
Verification of the LocalMorans repository (calc_local_morans.py).

The script loads a shapefile, builds Queen/Rook contiguity weights, fills
missing attribute values with the column mean, runs esda's Moran_Local,
classifies every unit into a LISA category and returns one output record per
input unit.  The statistical engine itself (weights construction,
Moran_Local's standardization, permutation inference, quadrant codes) lives
in external libraries (libpysal / esda) and is not part of the repository's
source; those parts are modelled from the specification and are marked
`Modelled from the spec:` in their doc comments.  Everything else is a
direct shallow embedding of calc_local_morans.py.

Numbers are embedded as rationals (ℚ); the permutation z-score, whose exact
value needs a square root that ℚ lacks, is carried as a deterministic
variance-scaled deviate — no claim settled here depends on its numeric value,
only on it being a function of the observed statistic and the reference
distribution that is carried unchanged into the output record.
-/

namespace LocalMorans

/-- The error taxonomy of spec §7.  The python script signals these by
printing a diagnostic and returning `None`; the embedding uses an `Except`
value carrying the taxonomy name of the branch taken. -/
inductive CalcError where
  | SourceReadError
  | FieldNotFoundError
  | InvalidWeightType
  | AllValuesMissingError
  | DegenerateInputError
deriving DecidableEq, Repr

/-- The two contiguity rules accepted by calc_local_morans.py (lines 34-37). -/
inductive WeightType where
  | queen
  | rook
deriving DecidableEq, Repr

/-- ASCII lower-casing of one character, the behaviour of python's
`str.lower()` on the ASCII range (the only range the script compares to:
the literals 'queen' and 'rook'). -/
def asciiLowerChar (c : Char) : Char :=
  if 'A' ≤ c ∧ c ≤ 'Z' then Char.ofNat (c.toNat + 32) else c

/-- ASCII lower-casing of a string, modelling `weight_type.lower()`. -/
def asciiLower (s : String) : String :=
  String.mk (s.data.map asciiLowerChar)

/-- Lines 34-40 of calc_local_morans.py: `weight_type.lower() == 'queen'`
selects Queen weights, `== 'rook'` selects Rook weights, anything else takes
the invalid-weight branch (print + return None, taxonomy `InvalidWeightType`). -/
def selectWeightType (weight_type : String) : Except CalcError WeightType :=
  if asciiLower weight_type = "queen" then .ok .queen
  else if asciiLower weight_type = "rook" then .ok .rook
  else .error .InvalidWeightType

/-- The values of an attribute column that are present (pandas drops NaN
when computing `.mean()`). -/
def presentValues (xs : List (Option ℚ)) : List ℚ :=
  xs.filterMap id

/-- `shapefile_data[field_name].mean()`: the arithmetic mean of the present
values; undefined (NaN in pandas, `none` here) when every value is missing. -/
def presentMean (xs : List (Option ℚ)) : Option ℚ :=
  if (presentValues xs).length = 0 then none
  else some ((presentValues xs).sum / (presentValues xs).length)

/-- Line 43 of calc_local_morans.py:
`shapefile_data[field_name].fillna(shapefile_data[field_name].mean())`.
When the mean is defined every missing entry becomes the mean; when every
value is missing the mean is NaN and pandas `fillna(NaN)` leaves the column
unchanged — no error is raised. -/
def fillna (xs : List (Option ℚ)) : List (Option ℚ) :=
  match presentMean xs with
  | none => xs
  | some m => xs.map (fun x => match x with | none => some m | some v => some v)

/-- The attribute preprocessing step of the script (line 43).  It never
fails: its only action is the mean-fill. -/
def preprocess (xs : List (Option ℚ)) : Except CalcError (List (Option ℚ)) :=
  .ok (fillna xs)

/-- Modelled from the spec (§3, §4.4; esda's `z = y - y.mean()` is not in
src): the mean-centred attribute vector. -/
def standardize (x : List ℚ) : List ℚ :=
  x.map (fun v => v - x.sum / x.length)

/-- Modelled from the spec (§4.4; esda internals are not in src):
m2 = (1/n) Σ_k z_k². -/
def m2 (z : List ℚ) : ℚ :=
  (z.map (fun v => v * v)).sum / z.length

/-- A spatial weights row: the neighbors of one unit with their weights. -/
abbrev WRow := List (Nat × ℚ)

/-- Modelled from the spec (§3; libpysal's lag is not in src): the
neighbor-weighted sum Σ_j w_ij z_j of one row. -/
def lag (z : List ℚ) (row : WRow) : ℚ :=
  (row.map (fun p => p.2 * z.getD p.1 0)).sum

/-- Modelled from the spec (§4.4; esda's Moran_Local core is not in src):
the Local Moran engine.  I_i = (z_i / m2) · Σ_j w_ij z_j; on a
zero-variance attribute (m2 = 0) the statistic is undefined and the engine
fails with `DegenerateInputError`. -/
def moranEngine (z : List ℚ) (w : List WRow) : Except CalcError (List ℚ) :=
  if m2 z = 0 then .error .DegenerateInputError
  else .ok (List.zipWith (fun zi row => zi / m2 z * lag z row) z w)

/-- Modelled from the spec (§4.5, §9; the random source of the permutation
inference is not in src): a linear-congruential pseudo-random step, the
deterministic seedable source of randomness. -/
def lcg (s : Nat) : Nat :=
  (1103515245 * s + 12345) % 2147483648

/-- Modelled from the spec (§9): a unit-specific derived seed, base seed
combined with the unit index. -/
def seedFor (seed i : Nat) : Nat :=
  lcg (seed + i)

/-- Remove the element at index i (used to draw without replacement). -/
def removeAt (xs : List ℚ) (i : Nat) : List ℚ :=
  xs.take i ++ xs.drop (i + 1)

/-- Modelled from the spec (§4.5): draw k values without replacement from a
pool, driven by the seedable random source; returns the draws and the
advanced random state. -/
def sampleK : Nat → List ℚ → Nat → (List ℚ × Nat)
  | 0, _, s => ([], s)
  | k + 1, xs, s =>
      if xs.length = 0 then ([], s)
      else
        let i := s % xs.length
        let rest := removeAt xs i
        let (vs, s') := sampleK k rest (lcg s)
        (xs.getD i 0 :: vs, s')

/-- Modelled from the spec (§4.5): one reference statistic for unit i — the
focal value z_i is held fixed, the weights of i are applied to values drawn
without replacement from the other n−1 positions, and the local statistic
is recomputed. -/
def refStat (zi mm : ℚ) (others rowW : List ℚ) (s : Nat) : ℚ × Nat :=
  let (vals, s') := sampleK rowW.length others s
  ((zi / mm) * (List.zipWith (fun w v => w * v) rowW vals).sum, s')

/-- Modelled from the spec (§4.5): the list of P reference statistics
produced by running the conditional permutation loop from a given random
state. -/
def genRefs : Nat → ℚ → ℚ → List ℚ → List ℚ → Nat → List ℚ
  | 0, _, _, _, _, _ => []
  | p + 1, zi, mm, others, rowW, s =>
      (refStat zi mm others rowW s).1 ::
        genRefs p zi mm others rowW (refStat zi mm others rowW s).2

/-- Modelled from the spec (§4.5): c = the count of reference statistics at
least as extreme as the observed I_i, the extremity direction matching the
sign of I_i (for I_i ≥ 0 count references ≥ I_i; for I_i < 0 count
references ≤ I_i). -/
def extremeCount (Ii : ℚ) (refs : List ℚ) : Nat :=
  if 0 ≤ Ii then (refs.filter (fun r => Ii ≤ r)).length
  else (refs.filter (fun r => r ≤ Ii)).length

/-- Modelled from the spec (§4.5): the pseudo p-value
p_i = (c + 1) / (P + 1). -/
def pSim (Ii : ℚ) (refs : List ℚ) (P : Nat) : ℚ :=
  ((extremeCount Ii refs : ℚ) + 1) / ((P : ℚ) + 1)

/-- Arithmetic mean of a list of rationals. -/
def meanQ (xs : List ℚ) : ℚ :=
  xs.sum / xs.length

/-- Population variance of a list of rationals. -/
def varQ (xs : List ℚ) : ℚ :=
  meanQ (xs.map (fun r => (r - meanQ xs) * (r - meanQ xs)))

/-- Modelled from the spec (§4.5; esda's z_sim is not in src): the
standardized deviate of I_i against the permutation distribution.  The spec
divides by the standard deviation; over ℚ the square root is unavailable,
so the model divides by the variance when it is nonzero and, per the spec's
degenerate rule, returns 0 when the distribution is degenerate.  No settled
claim depends on the numeric value, only on determinism and on the value
being carried into the output record. -/
def zScoreOf (Ii : ℚ) (refs : List ℚ) : ℚ :=
  if varQ refs = 0 then 0 else (Ii - meanQ refs) / varQ refs

/-- Modelled from the spec (§4.6; esda's q is not in src): the quadrant
code from the signs of z_i and the neighbor-weighted average.  The
boundary (either quantity exactly zero) is the spec's open question; the
model resolves it deterministically toward quadrant 3, matching the
non-strict complements of the strict sign tests. -/
def quadrant (zi lagi : ℚ) : Nat :=
  if 0 < zi ∧ 0 < lagi then 1
  else if zi < 0 ∧ 0 < lagi then 2
  else if 0 < zi ∧ lagi < 0 then 4
  else 3

/-- Line 57 of calc_local_morans.py: `sig = 1 * (moran_loc.p_sim < 0.05)`. -/
def sigOf (p : ℚ) : Nat :=
  if p < 5 / 100 then 1 else 0

/-- Lines 58-63 of calc_local_morans.py: the integer cluster code
hotspot + coldspot + outlier1 + outlier2. -/
def categoryCode (p : ℚ) (q : Nat) : Nat :=
  1 * (if q = 1 then 1 else 0) * sigOf p +
    2 * (if q = 3 then 1 else 0) * sigOf p +
    3 * (if q = 2 then 1 else 0) * sigOf p +
    4 * (if q = 4 then 1 else 0) * sigOf p

/-- Line 64 of calc_local_morans.py, the label list verbatim. -/
def labels : List String :=
  ["Non-sig", "Hotspot (High-High)", "Coldspot(Low-Low)",
   "outlier(Low-High)", "outlier(High-Low)"]

/-- Lines 67-70 of calc_local_morans.py: map the cluster code to its label
(`pd.Categorical.from_codes` then `.astype(str)`). -/
def lisaLabel (p : ℚ) (q : Nat) : String :=
  labels.getD (categoryCode p q) "nan"

/-- One input record: a polygon geometry (abstracted to an identifier; the
geometry itself is only carried, never inspected by the script's core) and
the attribute value, possibly missing. -/
structure SpatialUnit where
  geometry : Nat
  attr : Option ℚ
deriving DecidableEq, Repr

/-- One output record, the columns selected at line 73 of
calc_local_morans.py: the (post-imputation) attribute, LocMoranI, p_value,
Z_score, LISA_Clust and the geometry. -/
structure OutRecord where
  attr : Option ℚ
  locMoranI : ℚ
  p_value : ℚ
  z_score : ℚ
  lisa : String
  geometry : Nat
deriving DecidableEq, Repr

/-- The per-unit assembly of one output record: unit i's post-imputation
attribute, its local statistic, its permutation p-value and z-score, its
LISA label and its original geometry. -/
def assembleRecord (units : List SpatialUnit) (w : List WRow) (P seed : Nat)
    (filled : List (Option ℚ)) (z : List ℚ) (i : Nat) : OutRecord :=
  let mm := m2 z
  let zi := z.getD i 0
  let row := w.getD i []
  let lagi := lag z row
  let Ii := zi / mm * lagi
  let refs := genRefs P zi mm (removeAt z i) (row.map (fun p => p.2)) (seedFor seed i)
  let p := pSim Ii refs P
  { attr := filled.getD i none
    locMoranI := Ii
    p_value := p
    z_score := zScoreOf Ii refs
    lisa := lisaLabel p (quadrant zi lagi)
    geometry := ((units[i]?).map SpatialUnit.geometry).getD 0 }

/-- The embedding of calc_local_morans (lines 11-76).  `readOk` stands for
the shapefile loading succeeding (lines 22-26), `fieldPresent` for the
column check (lines 29-31); the weight selector is lines 34-40; line 43 is
the mean-fill; the weights matrix `w` enters as an input (its geometric
construction is libpysal's, external to the script); the statistic,
inference and classification stages are the spec-modelled engine above; the
record list returned selects, per unit in original order, the columns of
line 73. -/
def calc_local_morans (readOk fieldPresent : Bool) (weight_type : String)
    (units : List SpatialUnit) (w : List WRow) (P seed : Nat) :
    Except CalcError (List OutRecord) :=
  if readOk = false then .error .SourceReadError
  else if fieldPresent = false then .error .FieldNotFoundError
  else
    match selectWeightType weight_type with
    | .error e => .error e
    | .ok _ =>
        let filled := fillna (units.map SpatialUnit.attr)
        let z := standardize (filled.map (fun o => o.getD 0))
        if m2 z = 0 then .error .DegenerateInputError
        else .ok ((List.range units.length).map (assembleRecord units w P seed filled z))

/-- The observable outcome of one run of the `__main__` block
(lines 125-149): the process exit status, whether each of the two output
artifacts was written, and the diagnostics printed. -/
structure MainOutcome where
  exitCode : Nat
  geojsonWritten : Bool
  csvWritten : Bool
  printed : List String
deriving DecidableEq, Repr

/-- The diagnostic printed inside calc_local_morans for each failure branch
(lines 25, 30, 39). -/
def diagnosticOf : CalcError → String
  | .SourceReadError => "Failed to read shapefile"
  | .FieldNotFoundError => "Field not found in the shapefile attributes."
  | .InvalidWeightType => "Invalid weight type specified. Use queen or rook."
  | .AllValuesMissingError => "unreachable: the script raises no such error"
  | .DegenerateInputError => "unreachable in src: modelled engine failure"

/-- The embedding of the `__main__` block (lines 125-149).  A wrong
argument count prints a structured error and exits 1 (lines 126-128).
Otherwise the calculation runs; on success both artifacts are written and
the script ends normally (exit status 0); on failure the diagnostic and the
JSON error are printed, no artifact is written, and — the script never
calling sys.exit after line 128 — the process still ends with exit
status 0. -/
def mainRun (argc : Nat) (calcOutcome : Except CalcError (List OutRecord)) :
    MainOutcome :=
  if argc ≠ 4 then
    { exitCode := 1, geojsonWritten := false, csvWritten := false
      printed := ["error: Incorrect number of arguments provided."] }
  else
    match calcOutcome with
    | .ok _ =>
        { exitCode := 0, geojsonWritten := true, csvWritten := true
          printed := ["Results saved as GeoJSON to local_morans_results.geojson",
                      "Results saved as CSV to local_morans_results.csv"] }
    | .error e =>
        { exitCode := 0, geojsonWritten := false, csvWritten := false
          printed := [diagnosticOf e, "error: Calculation failed"] }

/-! ## Theorems -/

/-- Claim C10: the contiguity selector is matched case-insensitively — any
string whose lower-cased form is "queen" (resp. "rook") selects Queen
(resp. Rook) weights and does not take the invalid-weight-type branch. -/
theorem weight_type_case_insensitive (wt : String) :
    (asciiLower wt = "queen" → selectWeightType wt = .ok .queen) ∧
    (asciiLower wt = "rook" → selectWeightType wt = .ok .rook) := by
  constructor
  · intro h
    simp [selectWeightType, h]
  · intro h
    simp [selectWeightType, h]

/-- Claim C10, witness: "Queen" selects Queen weights and "ROOK" selects
Rook weights. -/
theorem weight_type_case_insensitive_witness :
    selectWeightType "Queen" = .ok .queen ∧ selectWeightType "ROOK" = .ok .rook :=
  ⟨(weight_type_case_insensitive "Queen").1 (by decide),
   (weight_type_case_insensitive "ROOK").2 (by decide)⟩

/-- Claim C1, counterexample: at p = 1/100 (significant) and quadrant 3 the
script emits the label "Coldspot(Low-Low)" (line 64 verbatim), not the
claimed "Coldspot (Low-Low)". -/
theorem label_string_counterexample :
    sigOf (1 / 100) = 1 ∧ lisaLabel (1 / 100) 3 = "Coldspot(Low-Low)" ∧
      lisaLabel (1 / 100) 3 ≠ "Coldspot (Low-Low)" := by
  have h : lisaLabel (1 / 100) 3 = "Coldspot(Low-Low)" := by
    norm_num [lisaLabel, categoryCode, sigOf, labels]
  refine ⟨by norm_num [sigOf], h, ?_⟩
  rw [h]
  decide

/-- Claim C1 (amended): sig_i = 1 iff p_i < 0.05, and the emitted label is
"Non-sig" when sig_i = 0 and otherwise "Hotspot (High-High)" for q = 1,
"Coldspot(Low-Low)" for q = 3, "outlier(Low-High)" for q = 2 and
"outlier(High-Low)" for q = 4 — the strings the script actually holds at
line 64. -/
theorem lisa_classifier_spec (p : ℚ) (q : Nat)
    (hq : q = 1 ∨ q = 2 ∨ q = 3 ∨ q = 4) :
    (sigOf p = 1 ↔ p < 5 / 100) ∧
    lisaLabel p q =
      (if sigOf p = 0 then "Non-sig"
       else if q = 1 then "Hotspot (High-High)"
       else if q = 3 then "Coldspot(Low-Low)"
       else if q = 2 then "outlier(Low-High)"
       else "outlier(High-Low)") := by
  constructor
  · by_cases h : p < 5 / 100 <;> simp [sigOf, h]
  · rcases hq with rfl | rfl | rfl | rfl <;>
      by_cases h : p < 5 / 100 <;>
        simp [lisaLabel, categoryCode, sigOf, labels, h]

/-- Claim C1, witness: the amended classifier contract evaluated at
p = 1/100, q = 3. -/
theorem lisa_classifier_spec_witness :
    sigOf (1 / 100) = 1 ∧ lisaLabel (1 / 100) 3 = "Coldspot(Low-Low)" := by
  have h := lisa_classifier_spec (1 / 100) 3 (Or.inr (Or.inr (Or.inl rfl)))
  have hs : sigOf (1 / 100 : ℚ) = 1 := h.1.mpr (by norm_num)
  refine ⟨hs, ?_⟩
  rw [h.2, hs]
  norm_num

/-- Claim C2: the pseudo p-value equals (c + 1) / (P + 1), c counting
reference statistics at least as extreme as the observed I in the direction
of its sign, and for any P ≥ 1 (with the P reference statistics the
permutation loop produced) it lies in (0, 1]. -/
theorem pseudo_p_formula_and_range (Ii : ℚ) (refs : List ℚ) (P : Nat)
    (hlen : refs.length = P) (hP : 1 ≤ P) :
    pSim Ii refs P = ((extremeCount Ii refs : ℚ) + 1) / ((P : ℚ) + 1) ∧
    0 < pSim Ii refs P ∧ pSim Ii refs P ≤ 1 := by
  have hc : extremeCount Ii refs ≤ P := by
    rw [← hlen]
    unfold extremeCount
    split
    · exact List.length_filter_le _ _
    · exact List.length_filter_le _ _
  have hden : (0 : ℚ) < (P : ℚ) + 1 := by positivity
  have hnum : (0 : ℚ) < (extremeCount Ii refs : ℚ) + 1 := by positivity
  refine ⟨rfl, ?_, ?_⟩
  · exact div_pos hnum hden
  · rw [pSim, div_le_one hden]
    have : (extremeCount Ii refs : ℚ) ≤ (P : ℚ) := by exact_mod_cast hc
    linarith

/-- Claim C2, witness: observed statistic 1 against the single reference
statistic 2, P = 1: p = (1 + 1) / (1 + 1) = 1 ∈ (0, 1]. -/
theorem pseudo_p_witness :
    pSim 1 [2] 1 = ((extremeCount 1 [2] : ℚ) + 1) / (((1 : Nat) : ℚ) + 1) ∧
    0 < pSim 1 [2] 1 ∧ pSim 1 [2] 1 ≤ 1 :=
  pseudo_p_formula_and_range 1 [2] 1 rfl (le_refl 1)

/-- Claim C7: on a zero-variance attribute (m2 = 0) the Local Moran engine
fails with DegenerateInputError rather than producing a statistic. -/
theorem degenerate_input_spec (z : List ℚ) (w : List WRow) (h : m2 z = 0) :
    moranEngine z w = .error .DegenerateInputError := by
  simp [moranEngine, h]

/-- Claim C7, witness: the constant (already centred) vector [0, 0] has
m2 = 0 and the engine rejects it. -/
theorem degenerate_input_witness :
    moranEngine [0, 0] [[], []] = .error .DegenerateInputError :=
  degenerate_input_spec [0, 0] [[], []] (by norm_num [m2])

/-- Claim C8, counterexample: with every value of the column missing the
preprocessor (line 43) raises nothing — the mean is undefined, fillna
leaves the column unchanged, and the computation continues. -/
theorem all_missing_counterexample :
    preprocess [none, none] = Except.ok [none, none] ∧
    preprocess [none, none] ≠ Except.error CalcError.AllValuesMissingError := by
  have h : preprocess ([none, none] : List (Option ℚ)) = Except.ok [none, none] := by
    simp [preprocess, fillna, presentMean, presentValues, List.filterMap]
  refine ⟨h, ?_⟩
  rw [h]
  exact fun hc => Except.noConfusion hc

/-- Claim C8 (amended): when every value of the attribute column is missing
the preprocessor does not fail: the mean is undefined and the entries simply
remain missing, the run continuing. -/
theorem all_missing_spec (xs : List (Option ℚ)) (h : ∀ x ∈ xs, x = none) :
    presentMean xs = none ∧ preprocess xs = Except.ok xs := by
  have hpv : presentValues xs = [] := by
    rw [presentValues, List.filterMap_eq_nil_iff]
    intro a ha
    exact h a ha
  have hpm : presentMean xs = none := by
    simp [presentMean, hpv]
  exact ⟨hpm, by simp [preprocess, fillna, hpm]⟩

/-- Claim C8, witness: the amended behaviour at the all-missing column
[none]. -/
theorem all_missing_spec_witness :
    presentMean [none] = none ∧ preprocess [none] = Except.ok [none] :=
  all_missing_spec [none] (by simp)

/-- Claim C5, counterexample: with the correct argument count and an
invalid contiguity selector the run fails, reports the reason, writes no
artifact — and still terminates with completion status 0 (the script never
calls sys.exit after the argument-count check). -/
theorem exit_status_counterexample :
    (mainRun 4 (Except.error CalcError.InvalidWeightType)).exitCode = 0 ∧
    (mainRun 4 (Except.error CalcError.InvalidWeightType)).geojsonWritten = false ∧
    (mainRun 4 (Except.error CalcError.InvalidWeightType)).printed =
      ["Invalid weight type specified. Use queen or rook.",
       "error: Calculation failed"] := by
  refine ⟨rfl, rfl, rfl⟩

/-- Claim C5 (amended): every failing run reports the failure reason and
emits no partial artifact, but the completion status is 0 for every core
failure; only the wrong-argument-count path terminates with a non-zero
status. -/
theorem failure_reporting_spec (e : CalcError) (argc : Nat)
    (o : Except CalcError (List OutRecord)) :
    mainRun 4 (Except.error e) =
      { exitCode := 0, geojsonWritten := false, csvWritten := false
        printed := [diagnosticOf e, "error: Calculation failed"] } ∧
    (argc ≠ 4 → (mainRun argc o).exitCode = 1) := by
  constructor
  · simp [mainRun]
  · intro h
    simp [mainRun, h]

/-- Claim C5, witness: the amended contract at a source-read failure and at
argument count 3. -/
theorem failure_reporting_witness :
    (mainRun 3 (Except.ok [])).exitCode = 1 :=
  (failure_reporting_spec CalcError.SourceReadError 3 (Except.ok [])).2 (by decide)

/-- Claim C6: any contiguity selector other than queen or rook (up to
case) makes calc_local_morans fail with InvalidWeightType, and the main
block then writes neither the GeoJSON nor the CSV artifact. -/
theorem invalid_weight_type_spec (wt : String)
    (hq : asciiLower wt ≠ "queen") (hr : asciiLower wt ≠ "rook")
    (units : List SpatialUnit) (w : List WRow) (P seed : Nat) :
    calc_local_morans true true wt units w P seed = .error .InvalidWeightType ∧
    (mainRun 4 (calc_local_morans true true wt units w P seed)).geojsonWritten = false ∧
    (mainRun 4 (calc_local_morans true true wt units w P seed)).csvWritten = false := by
  have hsel : selectWeightType wt = .error .InvalidWeightType := by
    simp [selectWeightType, hq, hr]
  have hcalc : calc_local_morans true true wt units w P seed =
      .error .InvalidWeightType := by
    simp [calc_local_morans, hsel]
  exact ⟨hcalc, by rw [hcalc]; rfl, by rw [hcalc]; rfl⟩

/-- Claim C6, witness: the selector "hex" fails with InvalidWeightType and
no artifact is written. -/
theorem invalid_weight_type_witness :
    calc_local_morans true true "hex" [] [] 9 0 = .error .InvalidWeightType ∧
    (mainRun 4 (calc_local_morans true true "hex" [] [] 9 0)).geojsonWritten = false ∧
    (mainRun 4 (calc_local_morans true true "hex" [] [] 9 0)).csvWritten = false :=
  invalid_weight_type_spec "hex" (by decide) (by decide) [] [] 9 0

/-- Claim C3: whenever at least one value is present, every missing entry
is replaced by the mean of the present values alone (the mean fixed before
any imputation); on [2,4,6,8,NA] the missing entry becomes 5 and the
mean-centred value of that unit is 0. -/
theorem mean_imputation_spec (xs : List (Option ℚ))
    (h : 0 < (presentValues xs).length) :
    (∀ i : Nat, xs[i]? = some none →
      (fillna xs)[i]? =
        some (some ((presentValues xs).sum / (presentValues xs).length))) ∧
    fillna [some 2, some 4, some 6, some 8, none] =
      [some 2, some 4, some 6, some 8, some 5] ∧
    standardize [2, 4, 6, 8, 5] = [-3, -1, 1, 3, 0] := by
  refine ⟨?_, ?_, ?_⟩
  · intro i hi
    have hpm : presentMean xs =
        some ((presentValues xs).sum / (presentValues xs).length) := by
      rw [presentMean, if_neg (by omega)]
    rw [fillna, hpm, List.getElem?_map, hi]
    rfl
  · norm_num [fillna, presentMean, presentValues, List.filterMap]
  · norm_num [standardize]

/-- Claim C3, witness: in the column [2,4,6,8,NA] the missing entry (index
4) is imputed with the mean of the four present values. -/
theorem mean_imputation_witness :
    (fillna [some 2, some 4, some 6, some 8, none])[4]? =
      some (some ((presentValues [some 2, some 4, some 6, some 8, none]).sum /
        (presentValues [some 2, some 4, some 6, some 8, none]).length)) :=
  (mean_imputation_spec [some 2, some 4, some 6, some 8, none]
    (by norm_num [presentValues, List.filterMap])).1 4 rfl

/-- Modelled from the spec (§4.5, §5): the permutation-inference loop as a
step relation.  From a random state, `P` reference statistics are produced;
each step draws one conditional permutation from the seedable random source
and advances the state.  Stated relationally so that determinism is a
theorem about the model, not a definitional triviality. -/
inductive PermRun (zi mm : ℚ) (others rowW : List ℚ) : Nat → Nat → List ℚ → Prop where
  | done (s : Nat) : PermRun zi mm others rowW s 0 []
  | step (s P : Nat) (r : ℚ) (rs : List ℚ)
      (hr : r = (refStat zi mm others rowW s).1)
      (hrest : PermRun zi mm others rowW (refStat zi mm others rowW s).2 P rs) :
      PermRun zi mm others rowW s (P + 1) (r :: rs)

/-- The permutation loop is deterministic: from one random state and one
permutation count only one reference list can be produced. -/
theorem permRun_deterministic (zi mm : ℚ) (others rowW : List ℚ)
    (s P : Nat) (refs1 refs2 : List ℚ)
    (h1 : PermRun zi mm others rowW s P refs1)
    (h2 : PermRun zi mm others rowW s P refs2) : refs1 = refs2 := by
  induction h1 generalizing refs2 with
  | done s => cases h2; rfl
  | step s P r rs hr hrest ih =>
      cases h2 with
      | step _ _ r' rs' hr' hrest' =>
          rw [hr, hr', ih rs' hrest']

/-- The executable reference generator realizes the permutation-run
relation. -/
theorem permRun_genRefs (zi mm : ℚ) (others rowW : List ℚ) (P : Nat) :
    ∀ s, PermRun zi mm others rowW s P (genRefs P zi mm others rowW s) := by
  induction P with
  | zero => exact fun s => PermRun.done s
  | succ n ih => exact fun s => PermRun.step s n _ _ rfl (ih _)

/-- Claim C9: two permutation-inference runs from the same seed on the same
inputs produce the same reference distribution, hence identical p-values
and identical category labels. -/
theorem permutation_determinism (zi mm Ii : ℚ) (others rowW : List ℚ)
    (s P q : Nat) (refs1 refs2 : List ℚ)
    (h1 : PermRun zi mm others rowW s P refs1)
    (h2 : PermRun zi mm others rowW s P refs2) :
    refs1 = refs2 ∧
    pSim Ii refs1 P = pSim Ii refs2 P ∧
    lisaLabel (pSim Ii refs1 P) q = lisaLabel (pSim Ii refs2 P) q := by
  have h := permRun_deterministic zi mm others rowW s P refs1 refs2 h1 h2
  rw [h]
  exact ⟨rfl, rfl, rfl⟩

/-- Claim C9, witness: two runs of the generator from seed state 0 with one
permutation agree on the p-value and the label. -/
theorem permutation_determinism_witness :
    genRefs 1 1 1 [2] [1] 0 = genRefs 1 1 1 [2] [1] 0 ∧
    pSim 1 (genRefs 1 1 1 [2] [1] 0) 1 = pSim 1 (genRefs 1 1 1 [2] [1] 0) 1 ∧
    lisaLabel (pSim 1 (genRefs 1 1 1 [2] [1] 0) 1) 1 =
      lisaLabel (pSim 1 (genRefs 1 1 1 [2] [1] 0) 1) 1 :=
  permutation_determinism 1 1 1 [2] [1] 0 1 1 _ _
    (permRun_genRefs 1 1 [2] [1] 1 0) (permRun_genRefs 1 1 [2] [1] 1 0)

/-- Claim C4: a successful run returns exactly one output record per input
unit, in input order, record i being the assembly of unit i's
post-imputation attribute, local statistic, p-value, z-score, category
label and unchanged original geometry. -/
theorem result_assembly_spec (readOk fieldPresent : Bool) (wt : String)
    (units : List SpatialUnit) (w : List WRow) (P seed : Nat)
    (res : List OutRecord)
    (h : calc_local_morans readOk fieldPresent wt units w P seed = .ok res) :
    res.length = units.length ∧
    ∀ i, i < units.length →
      res[i]? = some (assembleRecord units w P seed
        (fillna (units.map SpatialUnit.attr))
        (standardize ((fillna (units.map SpatialUnit.attr)).map (fun o => o.getD 0))) i) ∧
      (res[i]?).map OutRecord.geometry = (units[i]?).map SpatialUnit.geometry := by
  unfold calc_local_morans at h
  split at h
  · exact absurd h (by simp)
  · split at h
    · exact absurd h (by simp)
    · split at h
      · exact absurd h (by simp)
      · dsimp only at h
        split at h
        · exact absurd h (by simp)
        · have hres : res = (List.range units.length).map
              (assembleRecord units w P seed (fillna (units.map SpatialUnit.attr))
                (standardize ((fillna (units.map SpatialUnit.attr)).map (fun o => o.getD 0)))) := by
            exact (Except.ok.injEq _ _).mp h.symm
          subst hres
          constructor
          · simp
          · intro i hi
            have hget : (List.range units.length)[i]? = some i := by
              simp [List.getElem?_range, hi]
            have hu : units[i]? = some units[i] := List.getElem?_eq_getElem hi
            have hg : (assembleRecord units w P seed
                (fillna (units.map SpatialUnit.attr))
                (standardize ((fillna (units.map SpatialUnit.attr)).map (fun o => o.getD 0))) i).geometry
                = units[i].geometry := by
              simp [assembleRecord, hu]
            constructor
            · rw [List.getElem?_map, hget]
              rfl
            · rw [List.getElem?_map, hget, hu]
              simp only [Option.map_some, Option.map_map, Function.comp]
              simp [hg]

/-- A two-unit input for exercising the full pipeline. -/
def unitsW : List SpatialUnit := [⟨7, some 1⟩, ⟨9, some 3⟩]

/-- Row-standardized weights for the two-unit input: each unit is the
other's only neighbor. -/
def weightsW : List WRow := [[(1, 1)], [(0, 1)]]

/-- The record list the pipeline assembles for the two-unit input. -/
def recordsW : List OutRecord :=
  (List.range unitsW.length).map (assembleRecord unitsW weightsW 0 0
    (fillna (unitsW.map SpatialUnit.attr))
    (standardize ((fillna (unitsW.map SpatialUnit.attr)).map (fun o => o.getD 0))))

/-- Claim C4, witness: on the two-unit input the successful run returns as
many records as units. -/
theorem result_assembly_witness : recordsW.length = unitsW.length := by
  have hsel : selectWeightType "queen" = Except.ok WeightType.queen := by rfl
  have hm : m2 (standardize ((fillna (unitsW.map SpatialUnit.attr)).map
      (fun o => o.getD 0))) = 1 := by
    norm_num [unitsW, standardize, fillna, presentMean, presentValues,
      List.filterMap, m2]
  have hc : calc_local_morans true true "queen" unitsW weightsW 0 0 =
      .ok recordsW := by
    unfold calc_local_morans recordsW
    rw [hsel]
    simp [hm]
  exact (result_assembly_spec true true "queen" unitsW weightsW 0 0 recordsW hc).1

end LocalMorans

